import Mathlib

/-!
# Verification of the backblaze-b2 upload orchestration core

Shallow embedding of the upload-related logic of the `zaxbux/backblaze-b2`
JavaScript client: size-policy selection in `File.upload`, the checksum
manifest helpers in `lib/utils.js`, the large-file actions in
`lib/actions/largeFile.js`, the 401 re-authorization interceptor in
`lib/errors.js` / the `B2` client, the `B2Authorization` session update,
and the `B2Credentials` constructor.

JavaScript-specific behaviour is embedded explicitly:
* `x || d` on numbers treats `0` as falsy (`jsOrNat`);
* `x || d` on strings treats `""` as falsy (`jsOrStr`);
* `Array.prototype.sort()` with no comparator sorts by code-unit
  (lexicographic) string order, not numerically;
* `Object.keys` enumerates integer-like keys in ascending numeric order;
* `Object.assign(target, src)` copies the properties of `src` onto
  `target` one by one, keeping target properties that `src` lacks.
-/

namespace B2Client

/-! ## JavaScript value helpers -/

/-- JS `x || d` for an optional number: `undefined` and `0` are falsy. -/
def jsOrNat (x : Option Nat) (d : Nat) : Nat :=
  match x with
  | none => d
  | some n => if n = 0 then d else n

/-- JS `x || d` for an optional string: `undefined` and `""` are falsy. -/
def jsOrStr (x : Option String) (d : String) : String :=
  match x with
  | none => d
  | some s => if s = "" then d else s

/-! ## Size constants (`src/lib/constants.js`) -/

/-- `SINGLE_FILE_MIN_SIZE`: the min size of a single file (0 bytes). -/
def SINGLE_FILE_MIN_SIZE : Nat := 0

/-- `SINGLE_FILE_MAX_SIZE`: the max size of a single file (5 GiB). -/
def SINGLE_FILE_MAX_SIZE : Nat := 5368709120

/-- `LARGE_FILE_MIN_SIZE`: the min size of a large file (5 MiB). -/
def LARGE_FILE_MIN_SIZE : Nat := 5242880

/-- `LARGE_FILE_MAX_SIZE`: the max size of a large file (10 TB). -/
def LARGE_FILE_MAX_SIZE : Nat := 10995116277760

/-! ## `File.upload` size policy (`src/unnamed/part_006`, lines 870-884)

```js
async upload(args) {
  const recommendedPartSize = this._b2.authorization.recommendedPartSize;
  if ((this.size > recommendedPartSize || this.size > SINGLE_FILE_MAX_SIZE)
      && this.size <= LARGE_FILE_MAX_SIZE) {
    this.uploadLarge(args);            // note: not returned, not awaited
  }
  if (this.size > SINGLE_FILE_MIN_SIZE && this.size <= SINGLE_FILE_MAX_SIZE) {
    return this.uploadSingle(args);
  }
  throw new InvalidFileSizeError;
}
```

`uploadLarge(args)` is invoked without `return`/`await`, so control always
falls through to the second `if`; the run of one `upload` call is therefore
a pair: whether the large-file path was started, and what the call itself
returns (the single-file path or an `InvalidFileSizeError`). -/

/-- What `File.upload` itself returns. -/
inductive UploadReturn where
  | single
  | invalidSizeError
  deriving DecidableEq, Repr

/-- Observable effect of one `File.upload` call. -/
structure UploadRun where
  largeStarted : Bool
  ret : UploadReturn
  deriving DecidableEq, Repr

/-- `File.upload` as a function of the file size and the session's
recommended part size. -/
def fileUpload (size recommendedPartSize : Nat) : UploadRun :=
  let largeStarted :=
    (decide (size > recommendedPartSize) || decide (size > SINGLE_FILE_MAX_SIZE))
      && decide (size ≤ LARGE_FILE_MAX_SIZE)
  if size > SINGLE_FILE_MIN_SIZE ∧ size ≤ SINGLE_FILE_MAX_SIZE then
    ⟨largeStarted, .single⟩
  else
    ⟨largeStarted, .invalidSizeError⟩

/-! ## `B2Credentials` constructor (`src/lib/credentials.js`, lines 19-26)

```js
constructor(applicationKeyId, applicationKey) {
  if (applicationKeyId || applicationKey) {
    throw new InvalidCredentialsError('Invalid applicationKeyId or applicationKey');
  }
  this._applicationKeyId = applicationKeyId;
  this._applicationKey = applicationKey;
}
```

A string argument is truthy exactly when it is non-empty. -/

/-- Result of `new B2Credentials(id, key)`: the stored pair, or the thrown
error's class name. -/
def mkB2Credentials (applicationKeyId applicationKey : String) :
    Except String (String × String) :=
  if applicationKeyId ≠ "" ∨ applicationKey ≠ "" then
    .error "InvalidCredentialsError"
  else
    .ok (applicationKeyId, applicationKey)

/-- `B2` constructor (`src/unnamed/part_009`, lines 39-54): requires the
`credentials` argument, then wraps it in `B2Credentials`. -/
def mkB2 (credentials : Option (String × String)) :
    Except String (String × String) :=
  match credentials with
  | none => .error "InvalidArgumentError"
  | some (id, key) => mkB2Credentials id key

/-! ## `LargeFileActions.finish` (`src/lib/actions/largeFile.js`, lines 144-157)

```js
async finish(args) {
  if (!args || !args.fileId) {
    throw new InvalidArgumentError('The `fileId` parameter is required');
  }
  if (!args.partSha1Array) {
    throw new InvalidArgumentError('The `partSha1Array` parameter is required');
  }
  return await this._b2.client.post('/b2_finish_large_file', {
    fileId: args.fileId,
    partSha1Array: args.partSha1Array,
  });
}
```

A missing `fileId` or the empty string is falsy; `partSha1Array` is an
array object, which is truthy even when empty, so only an absent array is
rejected. -/

structure FinishArgs where
  fileId : Option String
  partSha1Array : Option (List String)
  deriving DecidableEq, Repr

/-- Outcome of a `finish` call: a locally thrown error, or the network
request that is issued. -/
inductive FinishOutcome where
  | invalidArgument (param : String)
  | network (fileId : String) (partSha1Array : List String)
  deriving DecidableEq, Repr

def finish (args : FinishArgs) : FinishOutcome :=
  match args.fileId with
  | none => .invalidArgument "fileId"
  | some fid =>
    if fid = "" then .invalidArgument "fileId"
    else
      match args.partSha1Array with
      | none => .invalidArgument "partSha1Array"
      | some arr => .network fid arr

/-! ## `getPartSha1Array` (`src/lib/utils.js`, lines 150-160)

```js
export function getPartSha1Array(partChecksums) {
  const sortedKeys = Object.keys(partChecksums).sort();
  const sortedParts = [];
  sortedKeys.forEach((partIndex) => {
    sortedParts.push(partChecksums[partIndex]);
  });
  return sortedParts;
}
```

`Object.keys` yields the integer-like keys in ascending numeric order as
decimal strings; the comparator-less `sort()` then re-sorts those strings
lexicographically by code unit. -/

/-- Code-unit (lexicographic) order on strings, as used by the default
`Array.prototype.sort()` comparator for ASCII content. -/
def jsStrLtChars : List Char → List Char → Bool
  | [], [] => false
  | [], _ :: _ => true
  | _ :: _, [] => false
  | a :: as, b :: bs =>
    if a.toNat < b.toNat then true
    else if b.toNat < a.toNat then false
    else jsStrLtChars as bs

def jsStrLt (a b : String) : Bool := jsStrLtChars a.data b.data

/-- Insertion into a list sorted by a boolean `lt`. -/
def insertBy {α : Type} (lt : α → α → Bool) (x : α) : List α → List α
  | [] => [x]
  | y :: ys => if lt x y then x :: y :: ys else y :: insertBy lt x ys

/-- Insertion sort by a boolean `lt`. -/
def sortBy {α : Type} (lt : α → α → Bool) : List α → List α
  | [] => []
  | x :: xs => insertBy lt x (sortBy lt xs)

/-- `getPartSha1Array`: the checksum map is an object with numeric keys;
`Object.keys` enumerates them ascending numerically, `sort()` re-orders the
decimal strings lexicographically, and the values are read off in that
order. -/
def getPartSha1Array (partChecksums : List (Nat × String)) : List String :=
  let keys := sortBy (fun a b => decide (a < b)) (partChecksums.map (·.1))
  let sortedKeys := sortBy jsStrLt (keys.map toString)
  sortedKeys.filterMap (fun k =>
    (partChecksums.find? (fun p => toString p.1 = k)).map (·.2))

/-! ## `handleResponseError` (`src/lib/errors.js`, lines 130-222)

The axios response interceptor installed in the `B2` constructor
(`src/unnamed/part_009`, lines 96-101) routes every failed response of the
shared client — control-plane calls and upload-URL posts alike — through
`handleResponseError(error, b2)`.  The function either rejects with the raw
error (no structured B2 body), throws a typed error, or — on a 401 with a
bad/expired-token code, when the request is not the authorize call and has
not been retried yet — re-authorizes and resends the original request once,
marking it with `_retry = true`. -/

/-- `url.endsWith('/b2_authorize_account')` in the 401 branch. -/
def isAuthorizeUrl (url : String) : Bool :=
  "/b2_authorize_account".data.isSuffixOf url.data

/-- What one invocation of `handleResponseError` does. -/
inductive HandlerResult where
  | rejectRaw
  | throwErr (errorClass : String)
  | retryRequest
  deriving DecidableEq, Repr

/-- `handleResponseError`, as a function of the `_retry` flag on the
original request, its URL, and the structured error body
(`status`, optional `code`). -/
def handleResponseError (retryFlag : Bool) (url : String)
    (status : Nat) (code : Option String) : HandlerResult :=
  match code with
  | none => .rejectRaw
  | some c =>
    if status = 400 then
      if c = "too_many_buckets" then .throwErr "TooManyBucketsError"
      else if c = "duplicate_bucket_name" then .throwErr "DuplicateBucketNameError"
      else .throwErr "BadRequestError"
    else if status = 401 then
      if isAuthorizeUrl url then .throwErr "UnauthorizedError"
      else if !retryFlag && (c = "bad_auth_token" || c = "expired_auth_token") then
        .retryRequest
      else if c = "bad_auth_token" then .throwErr "BadAuthTokenError"
      else if c = "expired_auth_token" then .throwErr "ExpiredAuthTokenError"
      else .throwErr "UnauthorizedError"
    else if status = 404 then .throwErr "NotFoundError"
    else if status = 403 then
      if c = "cap_exceeded" then .throwErr "CapExceededError"
      else if c = "storage_cap_exceeded" then .throwErr "StorageCapExceededError"
      else .throwErr "ForbiddenError"
    else if status = 405 then .throwErr "MethodNotAllowedError"
    else if status = 408 then .throwErr "RequestTimeoutError"
    else if status = 503 then .throwErr "ServiceUnavailableError"
    else .throwErr "B2RequestError"

/-- Outcome of one attempt of the original request on the wire. -/
inductive RespOutcome where
  | ok
  | fail (status : Nat) (code : Option String)
  deriving DecidableEq, Repr

/-- Outcome of the `b2.authorize()` call made inside the retry branch. -/
inductive AuthOutcome where
  | ok (sessionToken : String)
  | fail
  deriving DecidableEq, Repr

/-- Final result surfaced to the caller of the request. -/
inductive FinalResult where
  | success
  | surfaced (r : HandlerResult)
  | authorizeFailed
  deriving DecidableEq, Repr

/-- Observable run of one client request through the interceptor:
how many times the original request hit the wire, whether `b2.authorize()`
was invoked, the `Authorization` header the retry carried
(`originalRequest.headers.Authorization = authResponse.data.authorizationToken`),
and the final result. -/
structure RunResult where
  attempts : Nat
  reauthorized : Bool
  retryAuthHeader : Option String
  final : FinalResult
  deriving DecidableEq, Repr

/-- One request driven through the response interceptor: a first attempt,
then — only when `handleResponseError` takes its retry branch — the
re-authorization and a single resend carrying the fresh session token.  A
failed resend goes through `handleResponseError` again with
`_retry = true`; the (unreachable) case of that second invocation asking
for yet another retry is recorded as a third attempt. -/
def runRequest (url : String) (auth : AuthOutcome)
    (o1 o2 : RespOutcome) : RunResult :=
  match o1 with
  | .ok => ⟨1, false, none, .success⟩
  | .fail s c =>
    match handleResponseError false url s c with
    | .retryRequest =>
      match auth with
      | .fail => ⟨1, true, none, .authorizeFailed⟩
      | .ok tok =>
        match o2 with
        | .ok => ⟨2, true, some tok, .success⟩
        | .fail s2 c2 =>
          match handleResponseError true url s2 c2 with
          | .retryRequest => ⟨3, true, some tok, .surfaced .retryRequest⟩
          | r2 => ⟨2, true, some tok, .surfaced r2⟩
    | r => ⟨1, false, none, .surfaced r⟩

/-! ## `B2Authorization.update` (`src/lib/authorization.js`, lines 374-378)

```js
update(authorization) {
  Object.assign(this, authorization);
  return this;
}
```

`B2.authorize` (`src/unnamed/part_009`, line 122) calls
`this.authorization.update(response.data)` on the client's existing
authorization object.  A JS object is modelled as an association list of
property names and values; `Object.assign` copies the source's properties
onto the target one by one, so target properties absent from the source
survive. -/

/-- A JS object as an association list; `lookup` finds the first (most
recently assigned) binding. -/
abbrev JSObj := List (String × String)

/-- Property read. -/
def objGet (o : JSObj) (k : String) : Option String :=
  List.lookup k o

/-- Property write: the new binding shadows any previous one. -/
def objSet (o : JSObj) (k v : String) : JSObj :=
  (k, v) :: o

/-- `Object.assign(target, src)`: copy each property of `src` onto
`target`, in enumeration order, later writes shadowing earlier ones. -/
def objAssign (target src : JSObj) : JSObj :=
  src.foldl (fun t kv => objSet t kv.1 kv.2) target

/-- `B2Authorization.update` applied by `B2.authorize` to the client's
current authorization object and the authorize response body. -/
def authorizationUpdate (session respData : JSObj) : JSObj :=
  objAssign session respData

/-! ## `listParts` / `listAllParts` (`src/lib/actions/largeFile.js`, 193-227)

```js
async listAllParts(args) {
  const parts = [];
  let startPartNumber = args.startPartNumber;
  while (startPartNumber !== null) {
    const response = this.listParts({...args, startPartNumber: startPartNumber});
    parts.concat(response.data.parts);
    startPartNumber = response.data.nextPartNumber;
  }
  return parts;
}
```

`listParts` sends `startPartNumber: args.startPartNumber || 0` and
`maxPartCount: args.maxPartCount || 1000`.  The server collaborator is
modelled per the wire contract: it returns the stored parts (sorted by
part number) with number `≥ startPartNumber`, at most `maxPartCount` of
them, and `nextPartNumber` is the number of the first part beyond the
page, or `null` when the page exhausts the list.

In `listAllParts`, `this.listParts(...)` is not awaited and
`parts.concat(...)` returns a fresh array whose value is discarded; the
embedding is generous to the code and treats `listParts` as if awaited, so
the remaining behaviour is the loop that follows `nextPartNumber` while
never growing `parts`. -/

/-- One uploaded part as returned by `b2_list_parts`. -/
structure Part where
  partNumber : Nat
  contentSha1 : String
  deriving DecidableEq, Repr

/-- Body of a `b2_list_parts` response. -/
structure ListPartsResponse where
  parts : List Part
  nextPartNumber : Option Nat
  deriving DecidableEq, Repr

/-- Server collaborator for `b2_list_parts`, per the wire contract:
`allParts` is the service-side list of uploaded parts in ascending
part-number order. -/
def serverListParts (allParts : List Part) (startPartNumber maxPartCount : Nat) :
    ListPartsResponse :=
  let eligible := allParts.filter (fun p => startPartNumber ≤ p.partNumber)
  { parts := eligible.take maxPartCount
    nextPartNumber := (eligible.drop maxPartCount).head?.map (·.partNumber) }

/-- The `startPartNumber` variable of the `listAllParts` loop holds a JS
value that may be `undefined` (argument never supplied), `null` (server
sentinel), or a number. -/
inductive JSNum where
  | undef
  | null
  | num (n : Nat)
  deriving DecidableEq, Repr

/-- `LargeFileActions.listParts`: applies the `|| 0` / `|| 1000` defaults
and queries the server. -/
def listParts (allParts : List Part) (startPartNumber : Option Nat)
    (maxPartCount : Option Nat) : ListPartsResponse :=
  serverListParts allParts (jsOrNat startPartNumber 0) (jsOrNat maxPartCount 1000)

/-- The value `listParts` receives for `startPartNumber` from the loop
variable. -/
def cursorArg : JSNum → Option Nat
  | .undef => none
  | .null => none
  | .num n => some n

/-- The loop of `listAllParts`: runs while the cursor `!== null`; the
`parts.concat(...)` result is discarded, so the accumulator never changes.
`fuel` bounds the number of iterations; `none` means the fuel ran out
before the loop terminated. -/
def listAllPartsLoop (allParts : List Part) (maxPartCount : Option Nat) :
    Nat → JSNum → List Part → Option (List Part)
  | 0, _, _ => none
  | _ + 1, .null, acc => some acc
  | fuel + 1, cursor, acc =>
    let response := listParts allParts (cursorArg cursor) maxPartCount
    let _ := acc ++ response.parts
    listAllPartsLoop allParts maxPartCount fuel
      (match response.nextPartNumber with
       | none => .null
       | some n => .num n)
      acc

/-- `LargeFileActions.listAllParts`. -/
def listAllParts (allParts : List Part) (startPartNumber : JSNum)
    (maxPartCount : Option Nat) (fuel : Nat) : Option (List Part) :=
  listAllPartsLoop allParts maxPartCount fuel startPartNumber []

/-! ## SHA-1 (`createSHA1Checksum`, `src/lib/utils.js`, lines 140-142)

```js
export function createSHA1Checksum(data) {
  return createHash('sha1').update(data).digest('hex');
}
```

Node's `createHash('sha1')` is FIPS 180 SHA-1.  Bytes are `Nat < 256`,
words are `Nat < 2^32` with explicit `% 2^32` reductions. -/

/-- Truncation to a 32-bit word. -/
def w32 (x : Nat) : Nat := x % 4294967296

/-- 32-bit left rotation, for `x < 2^32` and `0 < n < 32`. -/
def rotl (n x : Nat) : Nat := w32 (x * 2 ^ n) + x / 2 ^ (32 - n)

/-- 32-bit bitwise complement, for `x < 2^32`. -/
def not32 (x : Nat) : Nat := 4294967295 - x

/-- SHA-1 round function. -/
def sha1F (i b c d : Nat) : Nat :=
  if i < 20 then (b &&& c) ||| (not32 b &&& d)
  else if i < 40 then (b ^^^ c) ^^^ d
  else if i < 60 then ((b &&& c) ||| (b &&& d)) ||| (c &&& d)
  else (b ^^^ c) ^^^ d

/-- SHA-1 round constants. -/
def sha1K (i : Nat) : Nat :=
  if i < 20 then 1518500249
  else if i < 40 then 1859775393
  else if i < 60 then 2400959708
  else 3395469782

/-- SHA-1 state: the five working words. -/
abbrev Sha1State := Nat × Nat × Nat × Nat × Nat

/-- The 80 compression rounds, consuming the message schedule. -/
def sha1Rounds : List Nat → Nat → Sha1State → Sha1State
  | [], _, s => s
  | w :: ws, i, (a, b, c, d, e) =>
    let t := w32 (rotl 5 a + sha1F i b c d + e + sha1K i + w)
    sha1Rounds ws (i + 1) (t, a, rotl 30 b, c, d)

/-- Message-schedule extension, keeping the schedule reversed so the words
`w[i-3]`, `w[i-8]`, `w[i-14]`, `w[i-16]` sit at positions 2, 7, 13, 15. -/
def sha1SchedRev : List Nat → Nat → List Nat
  | r, 0 => r
  | r, k + 1 =>
    sha1SchedRev
      (rotl 1 (((r.getD 2 0) ^^^ (r.getD 7 0)) ^^^ ((r.getD 13 0) ^^^ (r.getD 15 0))) :: r)
      k

/-- Big-endian packing of bytes into 32-bit words. -/
def bytesToWords : List Nat → List Nat
  | b0 :: b1 :: b2 :: b3 :: rest =>
    (b0 * 16777216 + b1 * 65536 + b2 * 256 + b3) :: bytesToWords rest
  | _ => []

/-- One 512-bit chunk folded into the hash state. -/
def sha1Chunk (h : Sha1State) (chunk : List Nat) : Sha1State :=
  let sched := (sha1SchedRev (bytesToWords chunk).reverse 64).reverse
  match h with
  | (h0, h1, h2, h3, h4) =>
    match sha1Rounds sched 0 (h0, h1, h2, h3, h4) with
    | (a, b, c, d, e) =>
      (w32 (h0 + a), w32 (h1 + b), w32 (h2 + c), w32 (h3 + d), w32 (h4 + e))

/-- Split into 64-byte chunks; `fuel` is an upper bound on the number of
chunks (the byte length suffices). -/
def chunks64Aux : Nat → List Nat → List (List Nat)
  | 0, _ => []
  | _, [] => []
  | fuel + 1, l => l.take 64 :: chunks64Aux fuel (l.drop 64)

def chunks64 (l : List Nat) : List (List Nat) := chunks64Aux l.length l

/-- FIPS 180 padding: a `0x80` byte, zeros to 56 mod 64, then the bit
length as 8 big-endian bytes. -/
def sha1PadBytes (msg : List Nat) : List Nat :=
  let len := msg.length
  let zeros := (119 - len % 64) % 64
  msg ++ [128] ++ List.replicate zeros 0 ++
    (List.range 8).map (fun i => 8 * len / 2 ^ (8 * (7 - i)) % 256)

/-- SHA-1 digest of a byte list, as the five hash words. -/
def sha1Words (msg : List Nat) : List Nat :=
  let h := (chunks64 (sha1PadBytes msg)).foldl sha1Chunk
    (1732584193, 4023233417, 2562383102, 271733878, 3285377520)
  [h.1, h.2.1, h.2.2.1, h.2.2.2.1, h.2.2.2.2]

/-- Lower-case hex digit, for `n < 16`. -/
def hexDigit (n : Nat) : Char :=
  if n < 10 then Char.ofNat (48 + n) else Char.ofNat (87 + n)

/-- A 32-bit word as 8 hex characters, most significant nibble first. -/
def wordHex (w : Nat) : List Char :=
  (List.range 8).map (fun i => hexDigit (w / 2 ^ (4 * (7 - i)) % 16))

/-- `createSHA1Checksum`: the hex-encoded SHA-1 digest of the data. -/
def createSHA1Checksum (data : List Nat) : String :=
  ⟨((sha1Words data).map wordHex).flatten⟩

/-! ## `LargeFileActions.uploadPart` (`src/lib/actions/largeFile.js`, 102-130)

Validates `uploadUrl`, `authorizationToken`, `partNumber` and `data` for
truthiness, then posts the data to the upload URL with headers

```js
'Authorization':     args.authorizationToken,
'Content-Length':    args.contentLength || getContentLength(args.data),
'X-Bz-Part-Number':  args.partNumber,
'X-Bz-Content-Sha1': args.hash || createSHA1Checksum(args.data),
```

A `partNumber` of `0` is falsy and rejected; a data buffer is an object
and is truthy even when empty. -/

structure UploadPartArgs where
  uploadUrl : String
  authorizationToken : String
  partNumber : Nat
  data : Option (List Nat)
  contentLength : Option Nat
  hash : Option String
  deriving DecidableEq, Repr

/-- The HTTP request an accepted `uploadPart` call issues. -/
structure UploadPartRequest where
  url : String
  body : List Nat
  authorization : String
  contentLength : Nat
  xBzPartNumber : Nat
  xBzContentSha1 : String
  deriving DecidableEq, Repr

def uploadPart (args : UploadPartArgs) : Except String UploadPartRequest :=
  if args.uploadUrl = "" then .error "The uploadUrl parameter is required"
  else if args.authorizationToken = "" then
    .error "The authorizationToken parameter is required"
  else if args.partNumber = 0 then .error "The partNumber parameter is required"
  else
    match args.data with
    | none => .error "The data parameter is required"
    | some d =>
      .ok
        { url := args.uploadUrl
          body := d
          authorization := args.authorizationToken
          contentLength := jsOrNat args.contentLength d.length
          xBzPartNumber := args.partNumber
          xBzContentSha1 := jsOrStr args.hash (createSHA1Checksum d) }

/-! # Helper lemmas -/

/-- First-match lookup distributes over list append. -/
theorem objGet_append (k : String) (l1 l2 : JSObj) :
    objGet (l1 ++ l2) k =
      match objGet l1 k with
      | some v => some v
      | none => objGet l2 k := by
  induction l1 with
  | nil => simp [objGet]
  | cons p t ih =>
    obtain ⟨k', v'⟩ := p
    by_cases hk : k = k'
    · simp [objGet, List.lookup, hk]
    · have hb : (k == k') = false := beq_eq_false_iff_ne.mpr hk
      simpa [objGet, List.lookup, hb] using ih

/-- Once a request carries `_retry = true`, `handleResponseError` never
asks for another retry. -/
theorem handleResponseError_no_second_retry (url : String) (s : Nat) (c : Option String) :
    handleResponseError true url s c ≠ .retryRequest := by
  unfold handleResponseError
  cases c with
  | none => simp
  | some c =>
    simp only []
    repeat' split
    all_goals simp_all

/-- A fresh (not yet retried) 401 with a bad/expired-token code on a
non-authorize URL sends `handleResponseError` into its retry branch. -/
theorem handleResponseError_fresh_token_rejection (url c : String)
    (hurl : isAuthorizeUrl url = false)
    (hc : c = "bad_auth_token" ∨ c = "expired_auth_token") :
    handleResponseError false url 401 (some c) = .retryRequest := by
  rcases hc with rfl | rfl <;> simp [handleResponseError, hurl]

/-- A word prints as exactly 8 hex characters. -/
theorem wordHex_length (w : Nat) : (wordHex w).length = 8 := by
  simp [wordHex]

/-- The hex SHA-1 digest is always 40 characters long. -/
theorem createSHA1Checksum_length (d : List Nat) :
    (createSHA1Checksum d).length = 40 := by
  show (((sha1Words d).map wordHex).flatten).length = 40
  rw [List.length_flatten, List.map_map]
  simp [Function.comp, wordHex_length, sha1Words]

/-- `hexDigit` produces a decimal digit or one of `a`-`f`. -/
theorem hexDigit_is_hex (n : Nat) (h : n < 16) :
    (hexDigit n).isDigit = true ∨ ('a' ≤ hexDigit n ∧ hexDigit n ≤ 'f') := by
  interval_cases n <;> decide

/-- Every character of the hex SHA-1 digest is a hex digit. -/
theorem createSHA1Checksum_chars_hex (d : List Nat) :
    ∀ c ∈ (createSHA1Checksum d).data,
      c.isDigit = true ∨ ('a' ≤ c ∧ c ≤ 'f') := by
  intro c hc
  have hc' : c ∈ ((sha1Words d).map wordHex).flatten := hc
  obtain ⟨l, hl, hcl⟩ := List.mem_flatten.mp hc'
  obtain ⟨w, _, rfl⟩ := List.mem_map.mp hl
  obtain ⟨i, _, rfl⟩ := List.mem_map.mp hcl
  exact hexDigit_is_hex _ (Nat.mod_lt _ (by norm_num))

set_option maxRecDepth 100000 in
/-- Sanity check of the SHA-1 embedding against the FIPS 180 test vectors
for the empty message and `"abc"`. -/
theorem sha1_test_vectors :
    createSHA1Checksum [] = "da39a3ee5e6b4b0d3255bfef95601890afd80709" ∧
    createSHA1Checksum [97, 98, 99] = "a9993e364706816aba3e25717850c26c9cd0d89d" := by
  constructor <;> rfl

/-! # Claim theorems -/

/-- C1 (counterexample): `finish` called with a present `fileId` and an
empty checksum manifest issues the network request instead of failing
locally — there is no `IncompleteUpload` validation before the call. -/
theorem finish_empty_manifest_goes_to_network :
    finish ⟨some "4_z27c88f1d182b150646ff0b16", some []⟩
      = .network "4_z27c88f1d182b150646ff0b16" [] ∧
    ∀ p, finish ⟨some "4_z27c88f1d182b150646ff0b16", some []⟩
      ≠ .invalidArgument p := by
  exact ⟨rfl, fun p h => by cases h⟩

/-- C1 (amended): `finish` performs presence-only validation: it throws
`InvalidArgumentError` locally iff `fileId` is missing/empty or
`partSha1Array` is absent; in every other case — including an empty or
non-contiguous manifest — it issues the finish call with the given
checksum array unchanged. -/
theorem finish_presence_validation_only (fid : String) (arr : List String)
    (h : fid ≠ "") :
    finish ⟨some fid, some arr⟩ = .network fid arr ∧
    finish ⟨some fid, none⟩ = .invalidArgument "partSha1Array" ∧
    finish ⟨none, some arr⟩ = .invalidArgument "fileId" ∧
    finish ⟨some "", some arr⟩ = .invalidArgument "fileId" := by
  refine ⟨?_, ?_, rfl, rfl⟩ <;> simp [finish, h]

/-- C1 witness: the amended validation behaviour at a concrete call. -/
theorem finish_presence_validation_only_witness :
    finish ⟨some "4_zfid", some ["a9993e364706816aba3e25717850c26c9cd0d89d"]⟩
      = .network "4_zfid" ["a9993e364706816aba3e25717850c26c9cd0d89d"] ∧
    finish ⟨some "4_zfid", none⟩ = .invalidArgument "partSha1Array" ∧
    finish ⟨none, some ["a9993e364706816aba3e25717850c26c9cd0d89d"]⟩
      = .invalidArgument "fileId" ∧
    finish ⟨some "", some ["a9993e364706816aba3e25717850c26c9cd0d89d"]⟩
      = .invalidArgument "fileId" :=
  finish_presence_validation_only "4_zfid"
    ["a9993e364706816aba3e25717850c26c9cd0d89d"] (by decide)

/-- C2: with ten parts the comparator-less `sort()` orders the decimal key
strings lexicographically, so `getPartSha1Array` places the checksum of
part 10 second, not last — the output is not in ascending numeric
part-number order. -/
theorem getPartSha1Array_lexicographic_misorder :
    getPartSha1Array
        [(1, "h1"), (2, "h2"), (3, "h3"), (4, "h4"), (5, "h5"),
         (6, "h6"), (7, "h7"), (8, "h8"), (9, "h9"), (10, "h10")]
      = ["h1", "h10", "h2", "h3", "h4", "h5", "h6", "h7", "h8", "h9"] ∧
    getPartSha1Array
        [(1, "h1"), (2, "h2"), (3, "h3"), (4, "h4"), (5, "h5"),
         (6, "h6"), (7, "h7"), (8, "h8"), (9, "h9"), (10, "h10")]
      ≠ ["h1", "h2", "h3", "h4", "h5", "h6", "h7", "h8", "h9", "h10"] := by
  decide

/-- C3: for a 10 MiB file with a 5 MiB recommended part size,
`File.upload` starts the large-file path AND returns the single-file path;
for a 6 GiB file it starts the large-file path AND throws
`InvalidFileSizeError` — two outcomes for one size, because
`this.uploadLarge(args)` is invoked without `return`. -/
theorem fileUpload_takes_two_paths :
    fileUpload 10485760 5242880 = ⟨true, .single⟩ ∧
    fileUpload 6442450944 5242880 = ⟨true, .invalidSizeError⟩ := by
  decide

/-- C4: a first failure with HTTP 401 and `bad_auth_token` or
`expired_auth_token` on a non-authorize URL causes one re-authorization
and exactly one resend of the original request, carrying the fresh session
token; a failing resend of any kind is surfaced through the error
taxonomy, and the original request never hits the wire a third time. -/
theorem authRefresh_retries_exactly_once (url c tok : String) (o2 : RespOutcome)
    (hurl : isAuthorizeUrl url = false)
    (hc : c = "bad_auth_token" ∨ c = "expired_auth_token") :
    (runRequest url (.ok tok) (.fail 401 (some c)) o2).attempts = 2 ∧
    (runRequest url (.ok tok) (.fail 401 (some c)) o2).reauthorized = true ∧
    (runRequest url (.ok tok) (.fail 401 (some c)) o2).retryAuthHeader = some tok ∧
    ∀ s2 c2, o2 = .fail s2 c2 →
      (runRequest url (.ok tok) (.fail 401 (some c)) o2).final =
        .surfaced (handleResponseError true url s2 c2) := by
  have hretry := handleResponseError_fresh_token_rejection url c hurl hc
  cases o2 with
  | ok => simp [runRequest, hretry]
  | fail s2 c2 =>
    have hne := handleResponseError_no_second_retry url s2 c2
    cases hh : handleResponseError true url s2 c2 with
    | retryRequest => exact absurd hh hne
    | rejectRaw => simp [runRequest, hretry, hh]
    | throwErr e => simp [runRequest, hretry, hh]

/-- C4 witness: a list-buckets call whose session token is rejected on
both attempts is retried exactly once and the second rejection surfaces. -/
theorem authRefresh_retries_exactly_once_witness :
    (runRequest "https://api005.backblazeb2.com/b2api/v2/b2_list_buckets"
        (.ok "sess_token_2") (.fail 401 (some "expired_auth_token"))
        (.fail 401 (some "expired_auth_token"))).attempts = 2 ∧
    (runRequest "https://api005.backblazeb2.com/b2api/v2/b2_list_buckets"
        (.ok "sess_token_2") (.fail 401 (some "expired_auth_token"))
        (.fail 401 (some "expired_auth_token"))).reauthorized = true ∧
    (runRequest "https://api005.backblazeb2.com/b2api/v2/b2_list_buckets"
        (.ok "sess_token_2") (.fail 401 (some "expired_auth_token"))
        (.fail 401 (some "expired_auth_token"))).retryAuthHeader = some "sess_token_2" ∧
    ∀ s2 c2,
      (.fail 401 (some "expired_auth_token") : RespOutcome) = .fail s2 c2 →
      (runRequest "https://api005.backblazeb2.com/b2api/v2/b2_list_buckets"
          (.ok "sess_token_2") (.fail 401 (some "expired_auth_token"))
          (.fail 401 (some "expired_auth_token"))).final =
        .surfaced (handleResponseError true
          "https://api005.backblazeb2.com/b2api/v2/b2_list_buckets" s2 c2) :=
  authRefresh_retries_exactly_once
    "https://api005.backblazeb2.com/b2api/v2/b2_list_buckets"
    "expired_auth_token" "sess_token_2" (.fail 401 (some "expired_auth_token"))
    (by decide) (Or.inr rfl)

/-- C5 (counterexample): a part-upload request (posted to an upload URL,
authorized by a lease token) that fails 401 `bad_auth_token` IS handled by
the automatic re-authorize-and-retry-once policy: the interceptor
re-authorizes and resends the upload request with the account session
token in `Authorization`. -/
theorem uploadPart_request_triggers_reauth :
    runRequest
        "https://pod-000-1005-03.backblaze.com/b2api/v2/b2_upload_part/4_z27c88f1d/0031"
        (.ok "account_session_token_2") (.fail 401 (some "bad_auth_token")) .ok
      = ⟨2, true, some "account_session_token_2", .success⟩ := by
  decide

/-- C5 (amended): the re-authorize-and-retry-once policy applies uniformly
to every request of the shared client whose URL is not the authorize
endpoint — part/single upload requests using a lease token included; on
such a retry the `Authorization` header is replaced with the new account
session token.  A lease-token rejection is surfaced without retry only
when the request already carries the `_retry` mark. -/
theorem tokenRejection_policy_applies_to_all_urls (url c tok : String)
    (o2 : RespOutcome)
    (hurl : isAuthorizeUrl url = false)
    (hc : c = "bad_auth_token" ∨ c = "expired_auth_token") :
    handleResponseError false url 401 (some c) = .retryRequest ∧
    (runRequest url (.ok tok) (.fail 401 (some c)) o2).reauthorized = true ∧
    (runRequest url (.ok tok) (.fail 401 (some c)) o2).retryAuthHeader = some tok := by
  have hretry := handleResponseError_fresh_token_rejection url c hurl hc
  refine ⟨hretry, ?_⟩
  cases o2 with
  | ok => simp [runRequest, hretry]
  | fail s2 c2 =>
    cases hh : handleResponseError true url s2 c2 <;>
      simp [runRequest, hretry, hh]

/-- C5 witness: the amended policy at a concrete upload URL and lease
rejection. -/
theorem tokenRejection_policy_applies_to_all_urls_witness :
    handleResponseError false
        "https://pod-000-1005-03.backblaze.com/b2api/v2/b2_upload_part/4_z27c88f1d/0031"
        401 (some "bad_auth_token") = .retryRequest ∧
    (runRequest
        "https://pod-000-1005-03.backblaze.com/b2api/v2/b2_upload_part/4_z27c88f1d/0031"
        (.ok "account_session_token_2") (.fail 401 (some "bad_auth_token"))
        (.fail 503 (some "service_unavailable"))).reauthorized = true ∧
    (runRequest
        "https://pod-000-1005-03.backblaze.com/b2api/v2/b2_upload_part/4_z27c88f1d/0031"
        (.ok "account_session_token_2") (.fail 401 (some "bad_auth_token"))
        (.fail 503 (some "service_unavailable"))).retryAuthHeader
      = some "account_session_token_2" :=
  tokenRejection_policy_applies_to_all_urls
    "https://pod-000-1005-03.backblaze.com/b2api/v2/b2_upload_part/4_z27c88f1d/0031"
    "bad_auth_token" "account_session_token_2"
    (.fail 503 (some "service_unavailable")) (by decide) (Or.inl rfl)

/-- C6: for a large file with parts 1 and 2 already uploaded and a server
answering with a single page, `listAllParts` terminates but returns the
empty list — `parts.concat(response.data.parts)` discards its result, so
nothing is ever accumulated. -/
theorem listAllParts_returns_empty :
    listAllParts [⟨1, "h1"⟩, ⟨2, "h2"⟩] .undef none 3 = some [] ∧
    (some ([] : List Part) ≠ some [⟨1, "h1"⟩, ⟨2, "h2"⟩]) := by
  decide

/-- C7: a zero-byte file satisfies `n ≤ S_max` and `n ≤ R`, yet
`File.upload` neither starts the large-file path nor returns the
single-file path: the guard `size > SINGLE_FILE_MIN_SIZE` is strict, so
`upload` throws `InvalidFileSizeError` — even though `uploadSingle`'s own
validation (`size < SINGLE_FILE_MIN_SIZE`) accepts size 0. -/
theorem fileUpload_rejects_zero_byte_file (R : Nat) :
    fileUpload 0 R = ⟨false, .invalidSizeError⟩ := by
  simp [fileUpload, SINGLE_FILE_MIN_SIZE, SINGLE_FILE_MAX_SIZE, LARGE_FILE_MAX_SIZE]

/-- C8 (counterexample): after an authorize response that carries a new
`authorizationToken` but no `s3ApiUrl`, the updated authorization object
holds the new token next to the old `s3ApiUrl` — a mix of old and new
field values — and two different pre-authorize sessions yield two
different post-authorize sessions, so the update is not a wholesale
replacement by the response. -/
theorem authorizationUpdate_mixes_old_and_new :
    objGet (authorizationUpdate
        [("authorizationToken", "token_old"),
         ("s3ApiUrl", "https://s3.us-west-000.backblazeb2.com")]
        [("authorizationToken", "token_new")]) "authorizationToken"
      = some "token_new" ∧
    objGet (authorizationUpdate
        [("authorizationToken", "token_old"),
         ("s3ApiUrl", "https://s3.us-west-000.backblazeb2.com")]
        [("authorizationToken", "token_new")]) "s3ApiUrl"
      = some "https://s3.us-west-000.backblazeb2.com" ∧
    authorizationUpdate
        [("authorizationToken", "token_old"),
         ("s3ApiUrl", "https://s3.us-west-000.backblazeb2.com")]
        [("authorizationToken", "token_new")]
      ≠ authorizationUpdate
        [("authorizationToken", "token_old"),
         ("s3ApiUrl", "https://s3.eu-central-003.backblazeb2.com")]
        [("authorizationToken", "token_new")] := by
  refine ⟨rfl, rfl, ?_⟩
  intro h
  exact absurd (congrArg (fun o => objGet o "s3ApiUrl") h) (by decide)

/-- C8 (amended): a successful authorize call updates the client's
existing authorization object in place via `Object.assign`: each property
of the response overwrites the corresponding field, while fields absent
from the response keep their previous values — a field-wise merge, not an
atomic wholesale swap. -/
theorem authorizationUpdate_fieldwise_merge :
    ∀ (session respData : JSObj) (k : String),
      objGet (authorizationUpdate session respData) k =
        match objGet respData.reverse k with
        | some v => some v
        | none => objGet session k := by
  intro session respData
  induction respData generalizing session with
  | nil => intro k; simp [authorizationUpdate, objAssign, objGet]
  | cons p d ih =>
    intro k
    obtain ⟨k', v'⟩ := p
    have step : authorizationUpdate session ((k', v') :: d)
        = authorizationUpdate (objSet session k' v') d := rfl
    rw [step, ih (objSet session k' v') k]
    rw [List.reverse_cons, objGet_append]
    by_cases hk : k = k'
    · subst hk
      cases h1 : objGet d.reverse k <;>
        simp [objGet, objSet, List.lookup, h1]
    · have hb : (k == k') = false := beq_eq_false_iff_ne.mpr hk
      cases h1 : objGet d.reverse k <;>
        simp [objGet, objSet, List.lookup, hb, h1]

/-- C9: an accepted `uploadPart` call with data bytes and no
caller-supplied hash sends `X-Bz-Content-Sha1` equal to the hex-encoded
SHA-1 digest of exactly the data bytes — 40 hex characters — and
`X-Bz-Part-Number` equal to the caller's part number. -/
theorem uploadPart_checksum_headers (args : UploadPartArgs) (d : List Nat)
    (hu : args.uploadUrl ≠ "") (ht : args.authorizationToken ≠ "")
    (hp : args.partNumber ≠ 0) (hd : args.data = some d) (hh : args.hash = none) :
    ∃ req, uploadPart args = .ok req ∧
      req.xBzContentSha1 = createSHA1Checksum d ∧
      req.xBzContentSha1.length = 40 ∧
      (∀ c ∈ req.xBzContentSha1.data, c.isDigit = true ∨ ('a' ≤ c ∧ c ≤ 'f')) ∧
      req.xBzPartNumber = args.partNumber := by
  refine ⟨{ url := args.uploadUrl, body := d, authorization := args.authorizationToken,
            contentLength := jsOrNat args.contentLength d.length,
            xBzPartNumber := args.partNumber,
            xBzContentSha1 := createSHA1Checksum d },
    ?_, rfl, createSHA1Checksum_length d, createSHA1Checksum_chars_hex d, rfl⟩
  simp only [uploadPart, hd, hh, if_neg hu, if_neg ht, if_neg hp, jsOrStr]

/-- C9 witness: the header contract at a concrete part upload of the bytes
`"abc"` as part 7. -/
theorem uploadPart_checksum_headers_witness :
    ∃ req,
      uploadPart
        ⟨"https://pod-000-1005-03.backblaze.com/b2api/v2/b2_upload_part/4_z27c88f1d/0031",
          "4_0022100", 7, some [97, 98, 99], none, none⟩ = .ok req ∧
      req.xBzContentSha1 = createSHA1Checksum [97, 98, 99] ∧
      req.xBzContentSha1.length = 40 ∧
      (∀ c ∈ req.xBzContentSha1.data, c.isDigit = true ∨ ('a' ≤ c ∧ c ≤ 'f')) ∧
      req.xBzPartNumber = 7 :=
  uploadPart_checksum_headers _ [97, 98, 99]
    (by decide) (by decide) (by decide) rfl rfl

/-- C10: `new B2Credentials(id, key)` throws `InvalidCredentialsError`
exactly when `id` or `key` is non-empty, so a `B2Credentials` — and a `B2`
client built through the constructor that wraps its credentials argument
in `B2Credentials` — can only be constructed when both credential strings
are empty. -/
theorem mkB2Credentials_rejects_nonempty (id key : String) :
    (mkB2Credentials id key = .error "InvalidCredentialsError"
      ↔ (id ≠ "" ∨ key ≠ "")) ∧
    (mkB2 (some (id, key)) = .ok (id, key) ↔ (id = "" ∧ key = "")) := by
  constructor
  · unfold mkB2Credentials
    by_cases h : id ≠ "" ∨ key ≠ "" <;> simp [h]
  · unfold mkB2 mkB2Credentials
    by_cases h : id ≠ "" ∨ key ≠ "" <;> simp [h] <;> tauto

end B2Client
